import Mathlib

/-
Verification development for the emdr-agent repository.

The definitions below are a shallow embedding of the core of the backend:
the session lifecycle operations of SessionService
(src/backend/src/services/SessionService.ts) and the safety assessment
engine of SafetyProtocolService (src/unnamed/part_011).

Modelling conventions:
- Ids are strings, as in the source (cuid strings in Prisma).
- Timestamps are natural numbers of milliseconds; Date.now() is the field
  now of the store, held constant during one operation.
- Nullable database columns (currentSUD, currentVOC, startTime, endTime)
  are Option values.
- JavaScript truthiness on numbers (x && ...) is modelled by jsTruthy:
  null/undefined and 0 are falsy.  JavaScript comparison coercion of null
  (null <= 2 is true since null coerces to 0) is modelled by jsNum.
- The persistence store is a record of lists.  Lists of sets and safety
  checks are kept newest first, so that the Prisma queries that order by
  createdAt/timestamp descending and take N become List.take N of the
  filtered list.
- Opaque JSON blobs (sessionData, phaseData, stimulationSettings,
  measurements contents, agentObservations) are not tracked; none of the
  verified properties depend on them.  In startSession and pauseSession
  the source spreads (session as any)?.sessionData inside the very
  statement that declares session; this self reference is modelled as the
  undefined value (var hoisting semantics), i.e. the spread contributes
  nothing, which only affects the untracked sessionData blob.
- Interpolated numbers inside human readable description strings are
  elided; no verified property reads these strings.
- Prisma persistence faults are not injected except through the explicit
  dbFault flag of the assessment pipeline, which models the fail safe
  catch of assessCurrentState.
-/

namespace Emdr

/-- Session lifecycle states, from the SessionState enum. -/
inductive SessionState where
  | PREPARING | IN_PROGRESS | PAUSED | COMPLETED | EMERGENCY_STOPPED
deriving DecidableEq, Repr

/-- EMDR protocol phases, from the EMDRPhase enum. -/
inductive EMDRPhase where
  | PREPARATION | ASSESSMENT | DESENSITIZATION | INSTALLATION
  | BODY_SCAN | CLOSURE | REEVALUATION | RESOURCE_INSTALLATION
deriving DecidableEq, Repr

/-- Risk levels, from the RiskLevel enum. -/
inductive RiskLevel where
  | LOW | MEDIUM | HIGH | CRITICAL
deriving DecidableEq, Repr

/-- Safety actions, from the SafetyAction enum. -/
inductive SafetyAction where
  | CONTINUE | PAUSE | GROUNDING | EMERGENCY_STOP | PROFESSIONAL_REFERRAL
deriving DecidableEq, Repr

/-- Safety check types.  The database enum has AUTOMATIC, MANUAL,
TRIGGERED and SCHEDULED; the TypeScript code additionally references an
EMERGENCY member, included here so that the claimed property about it can
be stated. -/
inductive SafetyCheckType where
  | AUTOMATIC | MANUAL | TRIGGERED | SCHEDULED | EMERGENCY
deriving DecidableEq, Repr

/-- Indicator type tags of SafetyIndicator in SafetyProtocolService. -/
inductive IndicatorType where
  | distress | dissociation | overwhelm | content | physiological
deriving DecidableEq, Repr

/-- Indicator severities of SafetyIndicator in SafetyProtocolService. -/
inductive Severity where
  | low | medium | high | critical
deriving DecidableEq, Repr

/-- Intervention type tags of SafetyIntervention. -/
inductive InterventionType where
  | grounding | pause | emergency_stop | professional_referral
deriving DecidableEq, Repr

/-- The spec error taxonomy; each throw site of the source is mapped to
the taxonomy name the spec assigns to it. -/
inductive SessionError where
  | validation | notFound | conflict | safetyBlocked
  | phaseGate | stateTransition | persistence
deriving DecidableEq, Repr

/-- JavaScript truthiness of a nullable number: null and 0 are falsy. -/
def jsTruthy : Option Int → Bool
  | some v => v != 0
  | none => false

/-- JavaScript a || b on a nullable number a and number b. -/
def jsOrInt : Option Int → Int → Int
  | some v, b => if v = 0 then b else v
  | none, b => b

/-- JavaScript numeric coercion of a nullable number in a comparison:
null coerces to 0. -/
def jsNum : Option Int → Int
  | some v => v
  | none => 0

/-- SafetyIndicator, from SafetyProtocolService.  The value field is a
rational because the duration indicator stores fractional minutes. -/
structure SafetyIndicator where
  type : IndicatorType
  severity : Severity
  description : String
  value : Option ℚ := none
  threshold : Option ℚ := none
deriving DecidableEq, Repr

/-- CrisisResource, from SafetyProtocolService. -/
structure CrisisResource where
  name : String
  rtype : String
  contact : String
deriving DecidableEq, Repr

/-- SafetyIntervention, from SafetyProtocolService. -/
structure SafetyIntervention where
  type : InterventionType
  instructions : List String
  resources : List CrisisResource := []
  followUpRequired : Bool
  estimatedDuration : Option Nat := none
deriving DecidableEq, Repr

/-- SafetyAssessment, from SafetyProtocolService. -/
structure SafetyAssessment where
  sessionId : String
  userId : String
  riskLevel : RiskLevel
  sudLevel : Int
  indicators : List SafetyIndicator
  recommendedAction : SafetyAction
  intervention : Option SafetyIntervention
  timestamp : Nat
deriving DecidableEq, Repr

/-- A user row together with the riskLevel of its safety profile
(none when the user has no safety profile row). -/
structure UserRec where
  id : String
  profileRisk : Option RiskLevel
deriving DecidableEq, Repr

/-- A target_memories row (the fields the core reads and writes). -/
structure TargetMemory where
  id : String
  userId : String
  isActive : Bool
  isResolved : Bool
deriving DecidableEq, Repr

/-- An emdr_sessions row (the fields the core reads and writes). -/
structure Session where
  id : String
  userId : String
  targetMemoryId : String
  phase : EMDRPhase
  state : SessionState
  startTime : Option Nat := none
  endTime : Option Nat := none
  totalDuration : Option Nat := none
  initialSUD : Int
  currentSUD : Option Int
  finalSUD : Option Int := none
  initialVOC : Int
  currentVOC : Option Int
  finalVOC : Option Int := none
  currentSetNumber : Nat
deriving DecidableEq, Repr

/-- An emdr_sets row (the fields the core reads and writes). -/
structure SetRec where
  sessionId : String
  setNumber : Nat
  startTime : Nat
  endTime : Option Nat := none
  duration : Option Nat := none
  feedbackSud : Option Int := none
  feedbackVoc : Option Int := none
deriving DecidableEq, Repr

/-- A safety_checks row (the fields the core reads and writes; the
riskLevel is part of the measurements snapshot). -/
structure CheckRec where
  sessionId : String
  checkType : SafetyCheckType
  action : SafetyAction
  riskLevel : RiskLevel
  timestamp : Nat
deriving DecidableEq, Repr

/-- The persistence store plus the model clock.  The sets and checks
lists are kept newest first. -/
structure Store where
  now : Nat
  nextId : Nat
  users : List UserRec
  memories : List TargetMemory
  sessions : List Session
  sets : List SetRec
  checks : List CheckRec
deriving DecidableEq, Repr

/-- findUnique on emdr_sessions by id. -/
def findSession (st : Store) (sid : String) : Option Session :=
  st.sessions.find? (fun s => s.id == sid)

/-- update on emdr_sessions by unique id: replace the row. -/
def replaceSession (st : Store) (s : Session) : Store :=
  { st with sessions := st.sessions.map (fun t => if t.id == s.id then s else t) }

/-- update on target_memories: set isResolved. -/
def resolveMemory (st : Store) (mid : String) : Store :=
  { st with memories :=
      st.memories.map (fun m => if m.id == mid then { m with isResolved := true } else m) }

/-- The safety checks of one session, newest first. -/
def checksOf (st : Store) (sid : String) : List CheckRec :=
  st.checks.filter (fun c => c.sessionId == sid)

/-- The sets of one session, newest first. -/
def setsOf (st : Store) (sid : String) : List SetRec :=
  st.sets.filter (fun r => r.sessionId == sid)

/-- The session snapshot fetched by assessCurrentState: the session with
its user safety profile, the most recent set and the five most recent
safety checks. -/
structure SessionBundle where
  session : Session
  profileRisk : Option RiskLevel
  recentSets : List SetRec
  recentChecks : List CheckRec
deriving DecidableEq, Repr

/-- The findUnique with includes at the top of assessCurrentState. -/
def getSessionBundle (st : Store) (sid : String) : Option SessionBundle :=
  match findSession st sid with
  | none => none
  | some s =>
      some { session := s
             profileRisk := ((st.users.find? (fun u => u.id == s.userId)).bind UserRec.profileRisk)
             recentSets := (setsOf st sid).take 1
             recentChecks := (checksOf st sid).take 5 }

/-- The crisis resource directory initialised in the service constructor
(contact texts abridged). -/
def crisisResources : List CrisisResource :=
  [ { name := "National Suicide Prevention Lifeline", rtype := "hotline", contact := "988" },
    { name := "Crisis Text Line", rtype := "text", contact := "741741" },
    { name := "Emergency Services", rtype := "emergency", contact := "911" },
    { name := "EMDR Professional Directory", rtype := "professional", contact := "emdria.org" } ]

/-- SafetyProtocolService.analyzeSession: derive the safety indicators
from the session snapshot.  The five indicator groups appear in source
order: distress, rapid SUD increase, session duration, user profile risk,
recent emergency interventions. -/
def analyzeSession (now : Nat) (b : SessionBundle) : List SafetyIndicator :=
  let s := b.session
  let currentSUD : Int := jsOrInt s.currentSUD s.initialSUD
  let distress : List SafetyIndicator :=
    if 8 ≤ currentSUD then
      [{ type := .distress
         severity := if 9 ≤ currentSUD then .critical else .high
         description := "High distress level"
         value := some (currentSUD : ℚ)
         threshold := some 8 }]
    else []
  let escalation : List SafetyIndicator :=
    if 0 < b.recentSets.length then
      let sudChange : Int := currentSUD - s.initialSUD
      if 3 ≤ sudChange then
        [{ type := .distress
           severity := if 5 ≤ sudChange then .critical else .high
           description := "Rapid distress increase"
           value := some (sudChange : ℚ)
           threshold := some 3 }]
      else []
    else []
  let overlong : List SafetyIndicator :=
    match s.startTime with
    | some t0 =>
        let elapsedMs : Nat := now - t0
        if 7200000 < elapsedMs then
          [{ type := .overwhelm
             severity := if 10800000 < elapsedMs then .high else .medium
             description := "Extended session duration"
             value := some ((elapsedMs : ℚ) / 60000)
             threshold := some 120 }]
        else []
    | none => []
  let profileRisk : List SafetyIndicator :=
    match b.profileRisk with
    | some rl =>
        if rl = .HIGH ∨ rl = .CRITICAL then
          [{ type := .overwhelm
             severity := if rl = .CRITICAL then .critical else .high
             description := "High-risk user profile" }]
        else []
    | none => []
  let recentEmergency : List SafetyIndicator :=
    if 0 < b.recentChecks.length then
      let recent := b.recentChecks.take 3
      let emergencyActions := recent.filter
        (fun c => c.action == .EMERGENCY_STOP || c.action == .PROFESSIONAL_REFERRAL)
      if 0 < emergencyActions.length then
        [{ type := .overwhelm
           severity := .critical
           description := "Recent emergency interventions" }]
      else []
    else []
  distress ++ escalation ++ overlong ++ profileRisk ++ recentEmergency

/-- SafetyProtocolService.calculateRiskLevel. -/
def calculateRiskLevel (indicators : List SafetyIndicator) : RiskLevel :=
  let criticalIndicators := indicators.filter (fun i => i.severity == .critical)
  if 0 < criticalIndicators.length then .CRITICAL
  else
    let highIndicators := indicators.filter (fun i => i.severity == .high)
    if 2 ≤ highIndicators.length then .HIGH
    else if highIndicators.length = 1 then .MEDIUM
    else
      let mediumIndicators := indicators.filter (fun i => i.severity == .medium)
      if 2 ≤ mediumIndicators.length then .MEDIUM
      else .LOW

/-- SafetyProtocolService.determineAction.  On HIGH risk the source tests
distressIndicators.length === 1 && distressIndicators[0].value &&
distressIndicators[0].value < 9 where distressIndicators filters by the
type tag (not by severity); the && on value is JavaScript truthiness. -/
def determineAction (riskLevel : RiskLevel) (indicators : List SafetyIndicator) : SafetyAction :=
  match riskLevel with
  | .CRITICAL => .EMERGENCY_STOP
  | .HIGH =>
      let distressIndicators := indicators.filter (fun i => i.type == .distress)
      let v0 : ℚ := (distressIndicators.head?.bind SafetyIndicator.value).getD 0
      if distressIndicators.length = 1 ∧ v0 ≠ 0 ∧ v0 < 9 then .GROUNDING
      else .PAUSE
  | .MEDIUM => .GROUNDING
  | .LOW => .CONTINUE

/-- SafetyProtocolService.getGroundingInstructions (texts abridged). -/
def groundingInstructions (indicators : List SafetyIndicator) : List String :=
  let base :=
    [ "Lets try a grounding technique together.",
      "Look around and name 5 things you can see.",
      "Now notice 4 things you can touch.",
      "Listen for 3 things you can hear.",
      "Identify 2 things you can smell.",
      "Notice 1 thing you can taste.",
      "Take three deep breaths with me." ]
  if indicators.any (fun i => i.type == .distress) then
    base ++ ["Remember: these feelings are temporary and will pass."]
  else base

/-- SafetyProtocolService.createIntervention. -/
def createIntervention (action : SafetyAction) (indicators : List SafetyIndicator) :
    Option SafetyIntervention :=
  match action with
  | .GROUNDING =>
      some { type := .grounding
             instructions := groundingInstructions indicators
             followUpRequired := true
             estimatedDuration := some 5 }
  | .PAUSE =>
      some { type := .pause
             instructions :=
               [ "Lets pause the session for a moment.",
                 "Take some deep breaths with me.",
                 "Notice your feet on the floor and your body in the chair.",
                 "We can continue when you feel ready, or end the session if you prefer." ]
             followUpRequired := true
             estimatedDuration := some 10 }
  | .EMERGENCY_STOP =>
      some { type := .emergency_stop
             instructions :=
               [ "We are stopping the session immediately for your safety.",
                 "You are safe right now in this moment.",
                 "Lets focus on grounding techniques.",
                 "Professional support is available if needed." ]
             resources := crisisResources
             followUpRequired := true }
  | .PROFESSIONAL_REFERRAL =>
      some { type := .professional_referral
             instructions :=
               [ "I recommend connecting with a licensed mental health professional.",
                 "This level of distress may benefit from professional support.",
                 "You do not have to handle this alone." ]
             resources := crisisResources.filter (fun r => r.rtype == "professional")
             followUpRequired := true }
  | .CONTINUE => none

/-- SafetyProtocolService.createEmergencyAssessment: the conservative
synthetic result returned when the assessment pipeline throws. -/
def createEmergencyAssessment (sid : String) (now : Nat) : SafetyAssessment :=
  { sessionId := sid
    userId := ""
    riskLevel := .HIGH
    sudLevel := 8
    indicators :=
      [{ type := .overwhelm
         severity := .high
         description := "Safety assessment system error - conservative response activated" }]
    recommendedAction := .PAUSE
    intervention :=
      some { type := .pause
             instructions :=
               [ "We are pausing for safety due to a system error.",
                 "Please take some deep breaths.",
                 "If you need immediate help, contact emergency services." ]
             resources := crisisResources
             followUpRequired := true }
    timestamp := now }

/-- SafetyProtocolService.recordSafetyCheck: persist the assessment as an
AUTOMATIC safety check row (a persistence failure would be swallowed; the
fault free model always records). -/
def recordSafetyCheck (st : Store) (a : SafetyAssessment) : Store :=
  { st with checks :=
      { sessionId := a.sessionId
        checkType := .AUTOMATIC
        action := a.recommendedAction
        riskLevel := a.riskLevel
        timestamp := a.timestamp } :: st.checks }

/-- The try block of assessCurrentState: fetch the snapshot, derive the
indicators, aggregate, choose the action, build the intervention and
record the check.  dbFault injects a store failure at the fetch, the one
step of the pipeline that can throw in the model. -/
def assessPipeline (st : Store) (sid : String) (dbFault : Bool) :
    Except SessionError (SafetyAssessment × Store) :=
  if dbFault then .error .persistence
  else
    match getSessionBundle st sid with
    | none => .error .notFound
    | some b =>
        let indicators := analyzeSession st.now b
        let riskLevel := calculateRiskLevel indicators
        let recommendedAction := determineAction riskLevel indicators
        let intervention := createIntervention recommendedAction indicators
        let a : SafetyAssessment :=
          { sessionId := sid
            userId := b.session.userId
            riskLevel := riskLevel
            sudLevel := jsOrInt b.session.currentSUD b.session.initialSUD
            indicators := indicators
            recommendedAction := recommendedAction
            intervention := intervention
            timestamp := st.now }
        .ok (a, recordSafetyCheck st a)

/-- SafetyProtocolService.assessCurrentState: the pipeline wrapped in the
catch that falls back to the conservative emergency assessment. -/
def assessCurrentState (st : Store) (sid : String) (dbFault : Bool) :
    SafetyAssessment × Store :=
  match assessPipeline st sid dbFault with
  | .ok r => r
  | .error _ => (createEmergencyAssessment sid st.now, st)

/-- SafetyProtocolService.triggerManualCheck: run an assessment, then
updateMany the checks of this session carrying the assessment timestamp
to checkType MANUAL. -/
def triggerManualCheck (st : Store) (sid : String) : SafetyAssessment × Store :=
  let r := assessCurrentState st sid false
  let a := r.1
  let st1 := r.2
  let updated := st1.checks.map
    (fun c => if c.sessionId == sid && c.timestamp == a.timestamp
              then { c with checkType := .MANUAL } else c)
  (a, { st1 with checks := updated })

/-- Input of SessionService.createSession. -/
structure CreateData where
  userId : String
  targetMemoryId : String
  initialSUD : Int
  initialVOC : Int
deriving DecidableEq, Repr

/-- SessionService.createSession: range validation, target memory lookup,
active session conflict check, then creation of a PREPARING session. -/
def createSession (st : Store) (d : CreateData) : Except SessionError Session × Store :=
  if d.initialSUD < 0 ∨ 10 < d.initialSUD then (.error .validation, st)
  else if d.initialVOC < 1 ∨ 7 < d.initialVOC then (.error .validation, st)
  else
    match st.memories.find?
        (fun m => m.id == d.targetMemoryId && m.userId == d.userId && m.isActive) with
    | none => (.error .notFound, st)
    | some _ =>
        match st.sessions.find?
            (fun s => s.userId == d.userId &&
              (s.state == .PREPARING || s.state == .IN_PROGRESS || s.state == .PAUSED)) with
        | some _ => (.error .conflict, st)
        | none =>
            let s : Session :=
              { id := "session-" ++ toString st.nextId
                userId := d.userId
                targetMemoryId := d.targetMemoryId
                phase := .PREPARATION
                state := .PREPARING
                initialSUD := d.initialSUD
                currentSUD := some d.initialSUD
                initialVOC := d.initialVOC
                currentVOC := some d.initialVOC
                currentSetNumber := 0 }
            (.ok s, { st with sessions := s :: st.sessions, nextId := st.nextId + 1 })

/-- SessionService.startSession: run the safety assessment first; any
recommended action other than CONTINUE aborts; otherwise update the
session (there is no check of the current lifecycle state). -/
def startSession (st : Store) (sid : String) : Except SessionError Session × Store :=
  let r := assessCurrentState st sid false
  let st1 := r.2
  if r.1.recommendedAction ≠ .CONTINUE then (.error .safetyBlocked, st1)
  else
    match findSession st1 sid with
    | none => (.error .notFound, st1)
    | some s =>
        let s1 := { s with state := SessionState.IN_PROGRESS, startTime := some st1.now }
        (.ok s1, replaceSession st1 s1)

/-- The ordered phase list of SessionService.getNextPhase as an index
function; RESOURCE_INSTALLATION is not in the list, which in JavaScript
makes indexOf return -1. -/
def phaseIndex : EMDRPhase → Int
  | .PREPARATION => 0
  | .ASSESSMENT => 1
  | .DESENSITIZATION => 2
  | .INSTALLATION => 3
  | .BODY_SCAN => 4
  | .CLOSURE => 5
  | .REEVALUATION => 6
  | .RESOURCE_INSTALLATION => -1

/-- The phases array of SessionService.getNextPhase by position. -/
def phaseAt : Int → Option EMDRPhase
  | 0 => some .PREPARATION
  | 1 => some .ASSESSMENT
  | 2 => some .DESENSITIZATION
  | 3 => some .INSTALLATION
  | 4 => some .BODY_SCAN
  | 5 => some .CLOSURE
  | 6 => some .REEVALUATION
  | _ => none

/-- SessionService.getNextPhase: currentIndex < phases.length - 1 ?
phases[currentIndex + 1] : null (with the JavaScript -1 behaviour for a
phase outside the list). -/
def getNextPhase (p : EMDRPhase) : Option EMDRPhase :=
  if phaseIndex p < 6 then phaseAt (phaseIndex p + 1) else none

/-- SessionService.canProgressToPhase: the phase entry predicates.  The
comparisons are JavaScript comparisons, so a null measurement coerces
to 0. -/
def canProgressToPhase (nextPhase : EMDRPhase) (s : Session) : Bool :=
  match nextPhase with
  | .DESENSITIZATION => 0 < jsNum s.currentSUD
  | .INSTALLATION => jsNum s.currentSUD ≤ 2
  | .BODY_SCAN => 6 ≤ jsNum s.currentVOC
  | _ => true

/-- SessionService.progressToNextPhase: advance to the immediate
successor phase when its entry predicate holds, archive the outgoing
phase data (untracked) and reset the set counter to 0.  There is no check
of the lifecycle state. -/
def progressToNextPhase (st : Store) (sid : String) : Except SessionError Session × Store :=
  match findSession st sid with
  | none => (.error .notFound, st)
  | some s =>
      match getNextPhase s.phase with
      | none => (.error .validation, st)
      | some nextPhase =>
          if ¬ canProgressToPhase nextPhase s then (.error .phaseGate, st)
          else
            let s1 := { s with phase := nextPhase, currentSetNumber := 0 }
            (.ok s1, replaceSession st s1)

/-- SessionService.startSet: requires IN_PROGRESS, then a safety
assessment whose recommended action must not be EMERGENCY_STOP; assigns
setNumber = currentSetNumber + 1 and stores it back on the session. -/
def startSet (st : Store) (sid : String) : Except SessionError SetRec × Store :=
  match findSession st sid with
  | none => (.error .notFound, st)
  | some s =>
      if s.state ≠ .IN_PROGRESS then (.error .stateTransition, st)
      else
        let r := assessCurrentState st sid false
        let st1 := r.2
        if r.1.recommendedAction = .EMERGENCY_STOP then (.error .safetyBlocked, st1)
        else
          let newSet : SetRec :=
            { sessionId := sid, setNumber := s.currentSetNumber + 1, startTime := st1.now }
          let s1 := { s with currentSetNumber := s.currentSetNumber + 1 }
          (.ok newSet, replaceSession { st1 with sets := newSet :: st1.sets } s1)

/-- The findFirst for the active set of a session in endSet. -/
def findActiveSet (st : Store) (sid : String) (n : Nat) : Option SetRec :=
  st.sets.find? (fun r => r.sessionId == sid && r.setNumber == n && r.endTime == none)

/-- The voc validation condition of endSet:
userFeedback.voc && (voc < 1 || voc > 7), with JavaScript truthiness, so
a present voc of 0 is never rejected. -/
def vocRejected (voc : Option Int) : Bool :=
  match voc with
  | some v => v != 0 && (v < 1 || 7 < v)
  | none => false

/-- SessionService.endSet: find the active set, validate sud and voc,
close the set, copy the measurements onto the session
(currentVOC := voc || currentVOC), and trigger a manual safety check when
overwhelm or dissociation was reported. -/
def endSet (st : Store) (sid : String) (sud : Int) (voc : Option Int)
    (overwhelm dissociation : Bool) : Except SessionError SetRec × Store :=
  match findSession st sid with
  | none => (.error .notFound, st)
  | some s =>
      match findActiveSet st sid s.currentSetNumber with
      | none => (.error .notFound, st)
      | some cur =>
          if sud < 0 ∨ 10 < sud then (.error .validation, st)
          else if vocRejected voc then (.error .validation, st)
          else
            let closed := { cur with
              endTime := some st.now
              duration := some ((st.now - cur.startTime) / 1000)
              feedbackSud := some sud
              feedbackVoc := voc }
            let newSets := st.sets.map (fun r =>
              if r.sessionId == sid && r.setNumber == s.currentSetNumber && r.endTime == none
              then closed else r)
            let s1 := { s with
              currentSUD := some sud
              currentVOC := if jsTruthy voc then voc else s.currentVOC }
            let st1 := replaceSession { st with sets := newSets } s1
            let st2 := if overwhelm || dissociation then (triggerManualCheck st1 sid).2 else st1
            (.ok closed, st2)

/-- SessionService.pauseSession: a direct update to PAUSED with no check
of the current lifecycle state. -/
def pauseSession (st : Store) (sid : String) : Except SessionError Session × Store :=
  match findSession st sid with
  | none => (.error .notFound, st)
  | some s =>
      let s1 := { s with state := SessionState.PAUSED }
      (.ok s1, replaceSession st s1)

/-- SessionService.resumeSession: the safety assessment blocks only when
the recommended action is EMERGENCY_STOP; then a direct update to
IN_PROGRESS with no check of the current lifecycle state. -/
def resumeSession (st : Store) (sid : String) : Except SessionError Session × Store :=
  let r := assessCurrentState st sid false
  let st1 := r.2
  if r.1.recommendedAction = .EMERGENCY_STOP then (.error .safetyBlocked, st1)
  else
    match findSession st1 sid with
    | none => (.error .notFound, st1)
    | some s =>
        let s1 := { s with state := SessionState.IN_PROGRESS }
        (.ok s1, replaceSession st1 s1)

/-- The resolution condition of completeSession:
session.currentSUD && currentSUD <= 2 && session.currentVOC &&
currentVOC >= 6, with JavaScript truthiness, so a currentSUD of 0 fails
the condition. -/
def memoryResolvedCond (s : Session) : Bool :=
  jsTruthy s.currentSUD && decide (jsNum s.currentSUD ≤ 2) &&
    jsTruthy s.currentVOC && decide (6 ≤ jsNum s.currentVOC)

/-- SessionService.completeSession: any state goes to COMPLETED; final
measurements are copied from the current ones; the target memory is
marked resolved when the truthiness guarded condition holds.  There is no
check of the current lifecycle state. -/
def completeSession (st : Store) (sid : String) : Except SessionError Session × Store :=
  match findSession st sid with
  | none => (.error .notFound, st)
  | some s =>
      let totalDuration : Nat :=
        match s.startTime with
        | some t0 => (st.now - t0) / 1000
        | none => 0
      let s1 := { s with
        state := SessionState.COMPLETED
        endTime := some st.now
        totalDuration := some totalDuration
        finalSUD := s.currentSUD
        finalVOC := s.currentVOC }
      let st1 := replaceSession st s1
      let st2 := if memoryResolvedCond s then resolveMemory st1 s.targetMemoryId else st1
      (.ok s1, st2)

/-- SessionService.emergencyStop: update to EMERGENCY_STOPPED with no
check of the current lifecycle state, then trigger a manual safety check
(which records an AUTOMATIC check and retags it MANUAL). -/
def emergencyStop (st : Store) (sid : String) : Except SessionError Session × Store :=
  match findSession st sid with
  | none => (.error .notFound, st)
  | some s =>
      let s1 := { s with state := SessionState.EMERGENCY_STOPPED, endTime := some st.now }
      let st1 := replaceSession st s1
      (.ok s1, (triggerManualCheck st1 sid).2)

/-- Whether an operation result is a success. -/
def isOkE {α : Type} : Except SessionError α → Bool
  | .ok _ => true
  | .error _ => false

deriving instance DecidableEq for Except

/-- A store with no rows, used for unknown session scenarios. -/
def emptyStore : Store :=
  { now := 0, nextId := 0, users := [], memories := [], sessions := [], sets := [], checks := [] }

/-- A session template for the concrete scenarios below. -/
def baseSession : Session :=
  { id := "s1"
    userId := "u1"
    targetMemoryId := "m1"
    phase := .DESENSITIZATION
    state := .IN_PROGRESS
    initialSUD := 5
    currentSUD := some 5
    initialVOC := 3
    currentVOC := some 3
    currentSetNumber := 0 }

/-- A low risk user. -/
def baseUser : UserRec := { id := "u1", profileRisk := some .LOW }

/-- An active unresolved target memory of that user. -/
def baseMemory : TargetMemory :=
  { id := "m1", userId := "u1", isActive := true, isResolved := false }

/-- A COMPLETED (terminal) session with calm measurements, so that the
safety assessment recommends CONTINUE. -/
def terminalStore : Store :=
  { emptyStore with
    users := [baseUser]
    memories := [baseMemory]
    sessions := [{ baseSession with state := .COMPLETED, currentSUD := some 3 }] }

/-- A PAUSED session with currentSUD 8: the assessment derives a single
high distress indicator, risk MEDIUM, recommended action GROUNDING. -/
def groundingStore : Store :=
  { emptyStore with
    users := [baseUser]
    memories := [baseMemory]
    sessions := [{ baseSession with state := .PAUSED, initialSUD := 8, currentSUD := some 8 }] }

/-- An IN_PROGRESS session with currentSUD 9: the assessment derives a
critical distress indicator, risk CRITICAL, action EMERGENCY_STOP. -/
def criticalStore : Store :=
  { emptyStore with
    users := [baseUser]
    memories := [baseMemory]
    sessions :=
      [{ baseSession with state := .PAUSED, initialSUD := 9, currentSUD := some 9 }] }

/-- The same critical measurements on an IN_PROGRESS session, for the
startSet branch of the safety gate. -/
def criticalRunningStore : Store :=
  { emptyStore with
    users := [baseUser]
    memories := [baseMemory]
    sessions :=
      [{ baseSession with state := .IN_PROGRESS, initialSUD := 9, currentSUD := some 9 }] }

/-- The PAUSED session stored in groundingStore. -/
def groundingSession : Session :=
  { baseSession with state := .PAUSED, initialSUD := 8, currentSUD := some 8 }

/-- An IN_PROGRESS session with currentSUD 8: the assessment derives a
single high distress indicator, risk MEDIUM, recommended action
GROUNDING, while startSet requires the IN_PROGRESS state. -/
def groundingRunningStore : Store :=
  { emptyStore with
    users := [baseUser]
    memories := [baseMemory]
    sessions := [{ baseSession with initialSUD := 8, currentSUD := some 8 }] }

/-- A session with currentSUD 8 whose user has a HIGH risk profile: the
assessment derives one high distress indicator and one high overwhelm
indicator. -/
def highProfileStore : Store :=
  { emptyStore with
    users := [{ id := "u1", profileRisk := some .HIGH }]
    memories := [baseMemory]
    sessions := [{ baseSession with initialSUD := 8, currentSUD := some 8 }] }

/-- The indicators derived from highProfileStore: a high distress
indicator with value 8 and a high overwhelm indicator from the profile. -/
def highProfileInds : List SafetyIndicator :=
  [ { type := .distress
      severity := .high
      description := "High distress level"
      value := some 8
      threshold := some 8 },
    { type := .overwhelm
      severity := .high
      description := "High-risk user profile" } ]

/-- A fresh store for the set numbering trace: one user, one memory, no
session yet. -/
def traceStore0 : Store :=
  { emptyStore with users := [baseUser], memories := [baseMemory] }

/-- The trace store after createSession (session-0, PREPARING, SUD 3). -/
def traceStore1 : Store :=
  (createSession traceStore0 { userId := "u1", targetMemoryId := "m1", initialSUD := 3, initialVOC := 4 }).2

/-- The trace store after startSession (IN_PROGRESS). -/
def traceStore2 : Store := (startSession traceStore1 "session-0").2

/-- The trace store after the first startSet (set number 1). -/
def traceStore3 : Store := (startSet traceStore2 "session-0").2

/-- The trace store after progressToNextPhase (ASSESSMENT, counter 0). -/
def traceStore4 : Store := (progressToNextPhase traceStore3 "session-0").2

/-- The trace store after the second startSet. -/
def traceStore5 : Store := (startSet traceStore4 "session-0").2

/-- A session about to complete with currentSUD 0 and currentVOC 7. -/
def resolvedZeroStore : Store :=
  { emptyStore with
    users := [baseUser]
    memories := [baseMemory]
    sessions := [{ baseSession with currentSUD := some 0, currentVOC := some 7 }] }

/-- The same completion scenario with currentSUD 1. -/
def resolvedOneStore : Store :=
  { emptyStore with
    users := [baseUser]
    memories := [baseMemory]
    sessions := [{ baseSession with currentSUD := some 1, currentVOC := some 7 }] }

/-- The isResolved flag of a memory in a store. -/
def memResolved (st : Store) (mid : String) : Option Bool :=
  (st.memories.find? (fun m => m.id == mid)).map TargetMemory.isResolved

/-- A session with one open set (number 1) and currentVOC 4, for the
endSet validation scenarios. -/
def openSetStore : Store :=
  { emptyStore with
    users := [baseUser]
    memories := [baseMemory]
    sessions :=
      [{ baseSession with currentSetNumber := 1, currentVOC := some 4 }]
    sets := [{ sessionId := "s1", setNumber := 1, startTime := 0 }] }

/-- An IN_PROGRESS session with no safety checks yet, for the emergency
stop recording scenario. -/
def emergencyStore : Store :=
  { emptyStore with
    users := [baseUser]
    memories := [baseMemory]
    sessions := [baseSession] }

/-- The session stored in traceStore1 (created, not yet started). -/
def traceSession1 : Session :=
  { id := "session-0"
    userId := "u1"
    targetMemoryId := "m1"
    phase := .PREPARATION
    state := .PREPARING
    initialSUD := 3
    currentSUD := some 3
    initialVOC := 4
    currentVOC := some 4
    currentSetNumber := 0 }

/-- The session stored in traceStore2 (created, then started). -/
def traceSession2 : Session :=
  { id := "session-0"
    userId := "u1"
    targetMemoryId := "m1"
    phase := .PREPARATION
    state := .IN_PROGRESS
    startTime := some 0
    initialSUD := 3
    currentSUD := some 3
    initialVOC := 4
    currentVOC := some 4
    currentSetNumber := 0 }

/-- The set created by the first startSet of the trace. -/
def traceSet1 : SetRec := { sessionId := "session-0", setNumber := 1, startTime := 0 }

/-- The session stored in openSetStore. -/
def openSession : Session :=
  { baseSession with currentSetNumber := 1, currentVOC := some 4 }

/-- The open set stored in openSetStore. -/
def openSet : SetRec := { sessionId := "s1", setNumber := 1, startTime := 0 }

/-- The number of indicators of a given severity, for the claim side of
the risk aggregation property. -/
def countSeverity (sev : Severity) (l : List SafetyIndicator) : Nat :=
  (l.filter (fun i => i.severity == sev)).length

/-- The aggregation rule exactly as the spec words it: any critical
indicator gives CRITICAL; else at least two high give HIGH; else exactly
one high, or at least two medium, give MEDIUM; else LOW. -/
def riskLevelClaim (l : List SafetyIndicator) : RiskLevel :=
  if 1 ≤ countSeverity .critical l then .CRITICAL
  else if 2 ≤ countSeverity .high l then .HIGH
  else if countSeverity .high l = 1 ∨ 2 ≤ countSeverity .medium l then .MEDIUM
  else .LOW

/-- The condition the claim states for the HIGH to Grounding branch: the
high severity indicators form exactly one indicator, of type distress,
with a present value below 9. -/
def onlyHighIsDistressBelow9 (l : List SafetyIndicator) : Bool :=
  match l.filter (fun i => i.severity == .high) with
  | [i] =>
      i.type == .distress &&
        (match i.value with
         | some v => decide (v < 9)
         | none => false)
  | _ => false

/-- The action mapping exactly as the claim words it. -/
def actionClaim (r : RiskLevel) (l : List SafetyIndicator) : SafetyAction :=
  match r with
  | .CRITICAL => .EMERGENCY_STOP
  | .HIGH => if onlyHighIsDistressBelow9 l then .GROUNDING else .PAUSE
  | .MEDIUM => .GROUNDING
  | .LOW => .CONTINUE

/-- A sud value the validators accept. -/
def sudValid (s : Int) : Prop := 0 ≤ s ∧ s ≤ 10

/-- The amended acceptance condition for a voc value in endSet: absent,
zero (treated as absent by the truthiness check), or in range. -/
def vocAcceptedAmended (voc : Option Int) : Prop :=
  ∀ v, voc = some v → v = 0 ∨ (1 ≤ v ∧ v ≤ 7)

/-- Recording a safety check touches only the checks list, so an
assessment leaves sessions, sets, memories and the clock unchanged. -/
theorem assess_preserves (st : Store) (sid : String) (f : Bool) :
    (assessCurrentState st sid f).2.sessions = st.sessions ∧
    (assessCurrentState st sid f).2.sets = st.sets ∧
    (assessCurrentState st sid f).2.now = st.now ∧
    (assessCurrentState st sid f).2.memories = st.memories := by
  unfold assessCurrentState assessPipeline
  cases f with
  | true => simp
  | false =>
      cases h : getSessionBundle st sid with
      | none => simp
      | some b => simp [recordSafetyCheck]

/-- Retagging checks in triggerManualCheck also touches only the checks
list. -/
theorem trigger_preserves (st : Store) (sid : String) :
    (triggerManualCheck st sid).2.sessions = st.sessions ∧
    (triggerManualCheck st sid).2.sets = st.sets ∧
    (triggerManualCheck st sid).2.now = st.now ∧
    (triggerManualCheck st sid).2.memories = st.memories := by
  unfold triggerManualCheck
  exact assess_preserves st sid false

/-- Replacing the row of a session makes a lookup of that id return the
new row, provided the lookup succeeded before. -/
theorem find_replace (l : List Session) (sid : String) (s1 : Session) (hid : s1.id = sid) :
    (l.map (fun t => if t.id == s1.id then s1 else t)).find? (fun t => t.id == sid) =
      (l.find? (fun t => t.id == sid)).map (fun _ => s1) := by
  induction l with
  | nil => rfl
  | cons a tl ih =>
      simp only [List.map_cons]
      by_cases ha : a.id = sid
      · rw [if_pos (by simp [ha, hid])]
        rw [List.find?_cons_of_pos _ (by simp [hid]),
          List.find?_cons_of_pos _ (by simp [ha])]
        simp
      · rw [if_neg (by simp [hid]; exact ha)]
        rw [List.find?_cons_of_neg _ (by simp [ha]),
          List.find?_cons_of_neg _ (by simp [ha])]
        exact ih

/-- The same fact phrased on stores. -/
theorem findSession_replaceSession (st : Store) (sid : String) (s s1 : Session)
    (h : findSession st sid = some s) (hid : s1.id = sid) :
    findSession (replaceSession st s1) sid = some s1 := by
  unfold findSession replaceSession at *
  rw [find_replace st.sessions sid s1 hid, h]
  rfl

/-- A successful session lookup returns a row carrying the looked up
id. -/
theorem findSession_id (st : Store) (sid : String) (s : Session)
    (h : findSession st sid = some s) : s.id = sid := by
  unfold findSession at h
  have := List.find?_some h
  simpa using this

/-- Session lookup only depends on the sessions list. -/
theorem findSession_congr (st1 st2 : Store) (sid : String)
    (h : st1.sessions = st2.sessions) : findSession st1 sid = findSession st2 sid := by
  unfold findSession
  rw [h]

/-- Adding a set row does not change session lookup. -/
theorem findSession_setStore (base : Store) (sets2 : List SetRec) (sid : String) :
    findSession { base with sets := sets2 } sid = findSession base sid := rfl

/-- Claim C3: for every list of derived safety indicators, the
aggregated risk level is CRITICAL when some indicator is critical, else
HIGH when at least two are high, else MEDIUM when exactly one is high or
at least two are medium, else LOW. -/
theorem c3_risk_aggregation (l : List SafetyIndicator) :
    calculateRiskLevel l = riskLevelClaim l := by
  simp only [calculateRiskLevel, riskLevelClaim, countSeverity]
  split_ifs <;> first | rfl | omega

/-- Claim C1 (code bug evaluation): resumeSession on a COMPLETED session
succeeds and moves it back to IN_PROGRESS; no StateTransitionError is
raised and the terminal state is left. -/
theorem c1_terminal_state_escape :
    (findSession terminalStore "s1").map Session.state = some .COMPLETED ∧
    isOkE (resumeSession terminalStore "s1").1 = true ∧
    ((resumeSession terminalStore "s1").1.map Session.state) = .ok .IN_PROGRESS ∧
    (findSession (resumeSession terminalStore "s1").2 "s1").map Session.state =
      some .IN_PROGRESS := by decide

/-- Claim C2 (counterexample): with a safety assessment recommending
GROUNDING (which is not CONTINUE), resumeSession does not fail with
SafetyBlockedError but succeeds and changes the lifecycle state, and
startSet on an IN_PROGRESS session with the same assessment also
succeeds. -/
theorem c2_counterexample :
    (assessCurrentState groundingStore "s1" false).1.recommendedAction = .GROUNDING ∧
    SafetyAction.GROUNDING ≠ SafetyAction.CONTINUE ∧
    isOkE (resumeSession groundingStore "s1").1 = true ∧
    ((resumeSession groundingStore "s1").1.map Session.state) = .ok .IN_PROGRESS := by decide

/-- Claim C4 (counterexample): on the derived indicator list with one
high distress indicator of value 8 and one further high overwhelm
indicator, the risk is HIGH, the claim requires PAUSE (the distress
indicator is not the only high one), but the code returns GROUNDING. -/
theorem c4_counterexample :
    ((getSessionBundle highProfileStore "s1").map
        (analyzeSession highProfileStore.now)) = some highProfileInds ∧
    calculateRiskLevel highProfileInds = .HIGH ∧
    determineAction .HIGH highProfileInds = .GROUNDING ∧
    actionClaim .HIGH highProfileInds = .PAUSE ∧
    determineAction .HIGH highProfileInds ≠ actionClaim .HIGH highProfileInds := by decide

/-- Claim C4 (amended): the recommended action is EmergencyStop on
CRITICAL, Grounding on MEDIUM, Continue on LOW, and on HIGH it is
Grounding exactly when the indicators of type distress form a single
indicator with a present, nonzero value below 9, regardless of the
severities of the other indicators; otherwise Pause. -/
theorem c4_action_mapping_amended (r : RiskLevel) (l : List SafetyIndicator) :
    (r = .CRITICAL → determineAction r l = .EMERGENCY_STOP) ∧
    (r = .MEDIUM → determineAction r l = .GROUNDING) ∧
    (r = .LOW → determineAction r l = .CONTINUE) ∧
    (r = .HIGH →
      (determineAction r l = .GROUNDING ↔
        ∃ i, l.filter (fun j => j.type == .distress) = [i] ∧
          ∃ v : ℚ, i.value = some v ∧ v ≠ 0 ∧ v < 9) ∧
      (determineAction r l = .GROUNDING ∨ determineAction r l = .PAUSE)) := by
  refine ⟨fun h => by subst h; rfl, fun h => by subst h; rfl, fun h => by subst h; rfl, ?_⟩
  intro h
  subst h
  simp only [determineAction]
  set m := l.filter (fun j => j.type == .distress) with hm
  set v0 : ℚ := (m.head?.bind SafetyIndicator.value).getD 0 with hv0
  by_cases hc : m.length = 1 ∧ v0 ≠ 0 ∧ v0 < 9
  · rw [if_pos hc]
    refine ⟨⟨fun _ => ?_, fun _ => rfl⟩, Or.inl rfl⟩
    obtain ⟨i, hi⟩ : ∃ i, m = [i] := List.length_eq_one.mp hc.1
    refine ⟨i, hi, ?_⟩
    rcases hval : i.value with _ | v
    · exfalso
      apply hc.2.1
      rw [hv0, hi]
      simp [hval]
    · refine ⟨v, rfl, ?_⟩
      have hv0v : v0 = v := by rw [hv0, hi]; simp [hval]
      rw [hv0v] at hc
      exact hc.2
  · rw [if_neg hc]
    refine ⟨⟨fun hg => absurd hg (by decide), ?_⟩, Or.inr rfl⟩
    rintro ⟨i, hi, v, hval, hz, hlt⟩
    exfalso
    apply hc
    have hv0v : v0 = v := by rw [hv0, hi]; simp [hval]
    exact ⟨by rw [hi]; rfl, by rw [hv0v]; exact hz, by rw [hv0v]; exact hlt⟩

/-- Claim C6 (counterexample): a successful startSet, a phase advance and
a second successful startSet give the set numbers 1, 1: the counter is
reset by the phase advance, so the per session sequence is not 1, 2. -/
theorem c6_counterexample :
    (startSet traceStore2 "session-0").1.map SetRec.setNumber = .ok 1 ∧
    isOkE (progressToNextPhase traceStore3 "session-0").1 = true ∧
    (startSet traceStore4 "session-0").1.map SetRec.setNumber = .ok 1 ∧
    (setsOf traceStore5 "session-0").map SetRec.setNumber = [1, 1] := by decide

/-- Claim C7 (code bug evaluation): completing a session with
currentSUD 0 and currentVOC 7 records finalSUD 0 and finalVOC 7, which
satisfy finalSUD at most 2 and finalVOC at least 6, yet the target memory
is not marked resolved, because the truthiness guard treats 0 as absent;
with currentSUD 1 the memory is resolved. -/
theorem c7_zero_sud_not_resolved :
    ((completeSession resolvedZeroStore "s1").1.map
        (fun s => (s.finalSUD, s.finalVOC))) = .ok (some 0, some 7) ∧
    ((completeSession resolvedZeroStore "s1").1.map Session.state) = .ok .COMPLETED ∧
    memResolved (completeSession resolvedZeroStore "s1").2 "m1" = some false ∧
    memResolved (completeSession resolvedOneStore "s1").2 "m1" = some true := by decide

/-- Claim C8 (counterexample): endSet with a present voc of 0, which is
outside the range 1 to 7, is not rejected with ValidationError: the call
succeeds and currentVOC is left unchanged. -/
theorem c8_counterexample :
    isOkE (endSet openSetStore "s1" 5 (some 0) false false).1 = true ∧
    ¬ (1 ≤ (0 : Int) ∧ (0 : Int) ≤ 7) ∧
    (findSession (endSet openSetStore "s1" 5 (some 0) false false).2 "s1").map
      Session.currentVOC = some (some 4) := by decide

/-- Claim C9 (counterexample): a successful emergencyStop records exactly
one SafetyCheck for the session and its checkType is MANUAL, not
EMERGENCY. -/
theorem c9_counterexample :
    isOkE (emergencyStop emergencyStore "s1").1 = true ∧
    (checksOf (emergencyStop emergencyStore "s1").2 "s1").map CheckRec.checkType =
      [.MANUAL] ∧
    ¬ ∃ c ∈ checksOf (emergencyStop emergencyStore "s1").2 "s1",
        c.checkType = .EMERGENCY := by decide

/-- Claim C4 (witness): the amended HIGH mapping applied to the derived
two high indicator list yields Grounding or Pause. -/
theorem c4_action_mapping_amended_witness :
    determineAction .HIGH highProfileInds = .GROUNDING ∨
    determineAction .HIGH highProfileInds = .PAUSE :=
  ((c4_action_mapping_amended .HIGH highProfileInds).2.2.2 rfl).2

/-- Claim C5: whenever the assessment pipeline fails (an injected store
fault or an unavailable session snapshot), assessCurrentState returns the
conservative synthetic assessment: riskLevel HIGH, recommended action
Pause with the generic pause intervention, and in particular never
Continue on an error path. -/
theorem c5_fail_safe (st : Store) (sid : String) (fault : Bool)
    (h : fault = true ∨ findSession st sid = none) :
    assessCurrentState st sid fault = (createEmergencyAssessment sid st.now, st) ∧
    (assessCurrentState st sid fault).1.riskLevel = .HIGH ∧
    (assessCurrentState st sid fault).1.recommendedAction = .PAUSE ∧
    ((assessCurrentState st sid fault).1.intervention.map SafetyIntervention.type) =
      some .pause ∧
    (assessCurrentState st sid fault).1.recommendedAction ≠ .CONTINUE := by
  have hmain : assessCurrentState st sid fault = (createEmergencyAssessment sid st.now, st) := by
    unfold assessCurrentState assessPipeline getSessionBundle
    rcases h with h | h
    · subst h; rfl
    · cases fault with
      | true => rfl
      | false => rw [h]; rfl
  refine ⟨hmain, ?_, ?_, ?_, ?_⟩ <;> rw [hmain]
  · rfl
  · rfl
  · rfl
  · show SafetyAction.PAUSE ≠ SafetyAction.CONTINUE
    decide

/-- Claim C5 (witness): the fail safe result at a concrete store with no
session of the requested id. -/
theorem c5_fail_safe_witness :
    assessCurrentState emptyStore "ghost" false =
      (createEmergencyAssessment "ghost" emptyStore.now, emptyStore) ∧
    (assessCurrentState emptyStore "ghost" false).1.riskLevel = .HIGH ∧
    (assessCurrentState emptyStore "ghost" false).1.recommendedAction = .PAUSE ∧
    ((assessCurrentState emptyStore "ghost" false).1.intervention.map
      SafetyIntervention.type) = some .pause ∧
    (assessCurrentState emptyStore "ghost" false).1.recommendedAction ≠ .CONTINUE :=
  c5_fail_safe emptyStore "ghost" false (Or.inr (by decide))

/-- Claim C10: for an id with no stored session, the pipeline fails with
a not found error but assessCurrentState still returns an assessment: the
conservative HIGH and Pause result, not a raised NotFoundError. -/
theorem c10_unknown_session_total (st : Store) (sid : String)
    (h : findSession st sid = none) :
    assessPipeline st sid false = .error .notFound ∧
    assessCurrentState st sid false = (createEmergencyAssessment sid st.now, st) ∧
    (assessCurrentState st sid false).1.riskLevel = .HIGH ∧
    (assessCurrentState st sid false).1.recommendedAction = .PAUSE := by
  have hpipe : assessPipeline st sid false = .error .notFound := by
    unfold assessPipeline getSessionBundle
    rw [h]
    rfl
  have hmain : assessCurrentState st sid false = (createEmergencyAssessment sid st.now, st) := by
    unfold assessCurrentState
    rw [hpipe]
  exact ⟨hpipe, hmain, by rw [hmain]; rfl, by rw [hmain]; rfl⟩

/-- Claim C2 (amended): startSession is blocked with SafetyBlockedError
exactly when the assessment recommends anything but Continue (under
Continue it succeeds and starts the session), while resumeSession and
startSet are blocked with SafetyBlockedError exactly on an EmergencyStop
recommendation: under any other action, Pause and Grounding included,
resume succeeds and moves the session to IN_PROGRESS and startSet
succeeds and creates the next set; in every blocked case the session
rows (hence lifecycleState and currentSetNumber) and, for startSet, the
set rows are unchanged. -/
theorem c2_safety_gate_amended (st : Store) (sid : String) :
    ((assessCurrentState st sid false).1.recommendedAction ≠ .CONTINUE →
      (startSession st sid).1 = .error .safetyBlocked ∧
      (startSession st sid).2.sessions = st.sessions) ∧
    ((assessCurrentState st sid false).1.recommendedAction = .CONTINUE →
      ∀ s, findSession st sid = some s →
        (startSession st sid).1 =
          .ok { s with state := SessionState.IN_PROGRESS, startTime := some st.now }) ∧
    ((assessCurrentState st sid false).1.recommendedAction = .EMERGENCY_STOP →
      (resumeSession st sid).1 = .error .safetyBlocked ∧
      (resumeSession st sid).2.sessions = st.sessions) ∧
    ((assessCurrentState st sid false).1.recommendedAction ≠ .EMERGENCY_STOP →
      ∀ s, findSession st sid = some s →
        (resumeSession st sid).1 = .ok { s with state := SessionState.IN_PROGRESS }) ∧
    (∀ s, findSession st sid = some s → s.state = .IN_PROGRESS →
      ((assessCurrentState st sid false).1.recommendedAction = .EMERGENCY_STOP →
        (startSet st sid).1 = .error .safetyBlocked ∧
        (startSet st sid).2.sessions = st.sessions ∧
        (startSet st sid).2.sets = st.sets) ∧
      ((assessCurrentState st sid false).1.recommendedAction ≠ .EMERGENCY_STOP →
        (startSet st sid).1 =
          .ok { sessionId := sid, setNumber := s.currentSetNumber + 1,
                startTime := st.now })) := by
  refine ⟨?_, ?_, ?_, ?_, ?_⟩
  · intro ha
    simp only [startSession]
    rw [if_pos ha]
    exact ⟨rfl, (assess_preserves st sid false).1⟩
  · intro ha s hfind
    have hf1 : findSession (assessCurrentState st sid false).2 sid = some s := by
      rw [findSession_congr _ st sid (assess_preserves st sid false).1]
      exact hfind
    simp only [startSession, hf1]
    rw [if_neg (fun hne => hne ha), (assess_preserves st sid false).2.2.1]
  · intro ha
    simp only [resumeSession]
    rw [if_pos ha]
    exact ⟨rfl, (assess_preserves st sid false).1⟩
  · intro ha s hfind
    have hf1 : findSession (assessCurrentState st sid false).2 sid = some s := by
      rw [findSession_congr _ st sid (assess_preserves st sid false).1]
      exact hfind
    simp only [resumeSession, hf1]
    rw [if_neg ha]
  · intro s hfind hstate
    constructor
    · intro ha
      simp only [startSet, hfind]
      rw [if_neg (by simp [hstate]), if_pos ha]
      exact ⟨rfl, (assess_preserves st sid false).1, (assess_preserves st sid false).2.1⟩
    · intro ha
      simp only [startSet, hfind]
      rw [if_neg (by simp [hstate]), if_neg ha, (assess_preserves st sid false).2.2.1]

/-- Claim C2 (witness): both directions at concrete inputs: the three
operations are blocked under an EmergencyStop assessment, startSession
succeeds under Continue, and resumeSession and startSet proceed under a
Grounding assessment, which is not Continue. -/
theorem c2_safety_gate_amended_witness :
    (startSession criticalStore "s1").1 = .error .safetyBlocked ∧
    (resumeSession criticalStore "s1").1 = .error .safetyBlocked ∧
    (startSet criticalRunningStore "s1").1 = .error .safetyBlocked ∧
    (startSession traceStore1 "session-0").1 = .ok traceSession2 ∧
    (assessCurrentState groundingStore "s1" false).1.recommendedAction = .GROUNDING ∧
    (resumeSession groundingStore "s1").1 =
      .ok { groundingSession with state := SessionState.IN_PROGRESS } ∧
    (startSet groundingRunningStore "s1").1 =
      .ok { sessionId := "s1", setNumber := 1, startTime := 0 } := by
  have hcrit := c2_safety_gate_amended criticalStore "s1"
  have hcritR := c2_safety_gate_amended criticalRunningStore "s1"
  have htr := c2_safety_gate_amended traceStore1 "session-0"
  have hgr := c2_safety_gate_amended groundingStore "s1"
  have hgrR := c2_safety_gate_amended groundingRunningStore "s1"
  refine ⟨(hcrit.1 (by decide)).1,
    (hcrit.2.2.1 (by decide)).1,
    ((hcritR.2.2.2.2
        { baseSession with state := .IN_PROGRESS, initialSUD := 9, currentSUD := some 9 }
        (by decide) (by decide)).1 (by decide)).1,
    htr.2.1 (by decide) traceSession1 (by decide),
    by decide,
    hgr.2.2.2.1 (by decide) groundingSession (by decide),
    (hgrR.2.2.2.2 { baseSession with initialSUD := 8, currentSUD := some 8 }
      (by decide) (by decide)).2 (by decide)⟩

/-- Claim C6 (amended): each successful startSet assigns
setNumber = currentSetNumber + 1 and stores the incremented counter back
on the session, and each successful advanceToPhase resets the counter to
0, so set numbering restarts at 1 within every phase rather than running
1, 2, 3, ... across the whole session. -/
theorem c6_set_numbering_amended (st : Store) (sid : String) :
    (∀ s r st2, findSession st sid = some s → startSet st sid = (.ok r, st2) →
      r.setNumber = s.currentSetNumber + 1 ∧
      findSession st2 sid = some { s with currentSetNumber := s.currentSetNumber + 1 }) ∧
    (∀ r st2, progressToNextPhase st sid = (.ok r, st2) →
      r.currentSetNumber = 0 ∧ findSession st2 sid = some r) := by
  constructor
  · intro s r st2 hfind hrun
    have hsid : s.id = sid := findSession_id st sid s hfind
    simp only [startSet, hfind] at hrun
    by_cases hstate : s.state = SessionState.IN_PROGRESS
    · rw [if_neg (by simp [hstate])] at hrun
      by_cases hes : (assessCurrentState st sid false).1.recommendedAction = .EMERGENCY_STOP
      · rw [if_pos hes] at hrun
        exact absurd (congrArg Prod.fst hrun) (by simp)
      · rw [if_neg hes] at hrun
        rw [Prod.mk.injEq] at hrun
        obtain ⟨hr, hst2⟩ := hrun
        injection hr with hr
        constructor
        · rw [← hr]
        · subst hst2
          refine findSession_replaceSession _ sid s _ ?_ ?_
          · rw [findSession_setStore,
              findSession_congr _ st sid (assess_preserves st sid false).1]
            exact hfind
          · exact hsid
    · rw [if_pos hstate] at hrun
      exact absurd (congrArg Prod.fst hrun) (by simp)
  · intro r st2 hrun
    cases hfind : findSession st sid with
    | none =>
        simp only [progressToNextPhase, hfind] at hrun
        exact absurd (congrArg Prod.fst hrun) (by simp)
    | some s =>
        have hsid : s.id = sid := findSession_id st sid s hfind
        simp only [progressToNextPhase, hfind] at hrun
        cases hnext : getNextPhase s.phase with
        | none =>
            simp only [hnext] at hrun
            exact absurd (congrArg Prod.fst hrun) (by simp)
        | some np =>
            simp only [hnext] at hrun
            by_cases hgate : canProgressToPhase np s = true
            · rw [if_neg (by simp [hgate])] at hrun
              rw [Prod.mk.injEq] at hrun
              obtain ⟨hr, hst2⟩ := hrun
              injection hr with hr
              subst hst2
              constructor
              · rw [← hr]
              · rw [← hr]
                exact findSession_replaceSession st sid s _ hfind hsid
            · rw [if_pos (by simpa using hgate)] at hrun
              exact absurd (congrArg Prod.fst hrun) (by simp)

/-- Claim C6 (witness): the amended numbering law applied to the trace
store in which the started session has counter 0. -/
theorem c6_set_numbering_amended_witness :
    traceSet1.setNumber = traceSession2.currentSetNumber + 1 ∧
    findSession traceStore3 "session-0" =
      some { traceSession2 with currentSetNumber := traceSession2.currentSetNumber + 1 } :=
  (c6_set_numbering_amended traceStore2 "session-0").1 traceSession2 traceSet1 traceStore3
    (by decide) (by decide)

/-- An accepted voc value is never rejected by the endSet validator. -/
theorem vocRejected_false (voc : Option Int) (h : vocAcceptedAmended voc) :
    vocRejected voc = false := by
  cases voc with
  | none => rfl
  | some v =>
      rcases h v rfl with h0 | ⟨h1, h2⟩
      · subst h0; rfl
      · simp only [vocRejected, Bool.and_eq_false_iff]
        right
        simp only [Bool.or_eq_false_iff, decide_eq_false_iff_not]
        omega

/-- A voc value outside the amended acceptance condition is rejected. -/
theorem vocRejected_true (voc : Option Int) (h : ¬ vocAcceptedAmended voc) :
    vocRejected voc = true := by
  cases voc with
  | none => exact absurd (fun v hv => by cases hv) h
  | some v =>
      have hc : ¬ (v = 0 ∨ (1 ≤ v ∧ v ≤ 7)) := by
        intro hc
        exact h (fun w hw => by injection hw with hw; subst hw; exact hc)
      push_neg at hc
      simp only [vocRejected, Bool.and_eq_true, bne_iff_ne, ne_eq, decide_eq_true_eq,
        Bool.or_eq_true]
      obtain ⟨h0, h17⟩ := hc
      exact ⟨h0, by omega⟩

/-- On a successful endSet the session row is updated with the reported
measurements; a falsy voc leaves currentVOC as it was. -/
theorem endSet_success_session (st : Store) (sid : String) (sud : Int) (voc : Option Int)
    (ow ds : Bool) (s : Session) (cur : SetRec)
    (h1 : findSession st sid = some s)
    (h2 : findActiveSet st sid s.currentSetNumber = some cur)
    (hs : ¬ (sud < 0 ∨ 10 < sud)) (hv : vocRejected voc = false) :
    findSession (endSet st sid sud voc ow ds).2 sid =
      some { s with currentSUD := some sud,
                    currentVOC := if jsTruthy voc then voc else s.currentVOC } := by
  have hsid : s.id = sid := findSession_id st sid s h1
  simp only [endSet, h1, h2]
  rw [if_neg hs, if_neg (by simp [hv])]
  cases how : (ow || ds) with
  | true =>
      rw [if_pos rfl]
      dsimp only
      rw [findSession_congr _ _ sid (trigger_preserves _ sid).1]
      exact findSession_replaceSession _ sid s _
        (by rw [findSession_setStore]; exact h1) hsid
  | false =>
      rw [if_neg Bool.false_ne_true]
      dsimp only
      exact findSession_replaceSession _ sid s _
        (by rw [findSession_setStore]; exact h1) hsid

/-- Claim C8 (amended): session creation rejects an out of range sud with
ValidationError and no state change; endSet rejects an out of range sud,
and rejects a present voc outside 1 to 7 except the value 0, which the
truthiness check treats as absent: endSet then succeeds and leaves
currentVOC unchanged. -/
theorem c8_validation_amended (st : Store) (sid : String) (sud : Int) (voc : Option Int)
    (ow ds : Bool) (d : CreateData) (s : Session) (cur : SetRec)
    (h1 : findSession st sid = some s)
    (h2 : findActiveSet st sid s.currentSetNumber = some cur) :
    (¬ sudValid d.initialSUD → createSession st d = (.error .validation, st)) ∧
    (¬ (sudValid sud ∧ vocAcceptedAmended voc) →
      endSet st sid sud voc ow ds = (.error .validation, st)) ∧
    ((sudValid sud ∧ vocAcceptedAmended voc) →
      isOkE (endSet st sid sud voc ow ds).1 = true) ∧
    (sudValid sud → voc = some 0 →
      (findSession (endSet st sid sud voc ow ds).2 sid).map Session.currentVOC =
        some s.currentVOC) := by
  refine ⟨?_, ?_, ?_, ?_⟩
  · intro hbad
    simp only [createSession]
    rw [if_pos (by unfold sudValid at hbad; omega)]
  · intro hbad
    simp only [endSet, h1, h2]
    by_cases hsv : sud < 0 ∨ 10 < sud
    · rw [if_pos hsv]
    · have hva : ¬ vocAcceptedAmended voc := by
        intro hv
        exact hbad ⟨by unfold sudValid; omega, hv⟩
      rw [if_neg hsv, if_pos (vocRejected_true voc hva)]
  · rintro ⟨hsv, hva⟩
    simp only [endSet, h1, h2]
    rw [if_neg (by unfold sudValid at hsv; omega),
      if_neg (by simp [vocRejected_false voc hva])]
    rfl
  · intro hsv hvoc
    subst hvoc
    rw [endSet_success_session st sid sud (some 0) ow ds s cur h1 h2
      (by unfold sudValid at hsv; omega) (by decide)]
    rfl

/-- Claim C8 (witness): the amended validation law at the concrete open
set store, with an out of range creation sud, an out of range voc, and a
present voc of 0. -/
theorem c8_validation_amended_witness :
    createSession openSetStore
      { userId := "u1", targetMemoryId := "m1", initialSUD := 11, initialVOC := 4 } =
      (.error .validation, openSetStore) ∧
    endSet openSetStore "s1" 5 (some 9) false false = (.error .validation, openSetStore) ∧
    isOkE (endSet openSetStore "s1" 5 (some 0) false false).1 = true ∧
    (findSession (endSet openSetStore "s1" 5 (some 0) false false).2 "s1").map
      Session.currentVOC = some (some 4) := by
  have h0 := c8_validation_amended openSetStore "s1" 5 (some 0) false false
    { userId := "u1", targetMemoryId := "m1", initialSUD := 11, initialVOC := 4 }
    openSession openSet (by decide) (by decide)
  have h9 := c8_validation_amended openSetStore "s1" 5 (some 9) false false
    { userId := "u1", targetMemoryId := "m1", initialSUD := 11, initialVOC := 4 }
    openSession openSet (by decide) (by decide)
  refine ⟨h0.1 (by intro hband; exact absurd hband.2 (by decide)), ?_, ?_, ?_⟩
  · refine h9.2.1 ?_
    rintro ⟨-, hv⟩
    rcases hv 9 rfl with h | ⟨hge, hle⟩
    · exact absurd h (by decide)
    · exact absurd hle (by decide)
  · exact h0.2.2.1 ⟨by constructor <;> decide,
      fun v hv => by injection hv with hv; subst hv; left; rfl⟩
  · exact h0.2.2.2 (by constructor <;> decide) rfl

/-- The manual safety check always prepends a freshly recorded check that
the updateMany retags to MANUAL, provided the session exists. -/
theorem triggerManualCheck_records (st : Store) (sid : String) (s : Session)
    (h : findSession st sid = some s) :
    ∃ c rest, (triggerManualCheck st sid).2.checks = c :: rest ∧
      c.checkType = .MANUAL ∧ c.sessionId = sid ∧ c.timestamp = st.now := by
  simp [triggerManualCheck, assessCurrentState, assessPipeline, getSessionBundle, h,
    recordSafetyCheck]

/-- Claim C9 (amended): every successful call to emergencyStop records a
SafetyCheck for that session, but its checkType is manual (the assessment
first records it as automatic and the manual trigger retags it), not
emergency. -/
theorem c9_emergency_check_amended (st : Store) (sid : String) (s : Session)
    (h : findSession st sid = some s) :
    isOkE (emergencyStop st sid).1 = true ∧
    ∃ c rest, (emergencyStop st sid).2.checks = c :: rest ∧
      c.checkType = .MANUAL ∧ c.sessionId = sid ∧ c.timestamp = st.now := by
  have hsid : s.id = sid := findSession_id st sid s h
  simp only [emergencyStop, h]
  refine ⟨rfl, ?_⟩
  have hrep : findSession
      (replaceSession st { s with state := SessionState.EMERGENCY_STOPPED, endTime := some st.now })
      sid = some { s with state := SessionState.EMERGENCY_STOPPED, endTime := some st.now } :=
    findSession_replaceSession st sid s _ h hsid
  exact triggerManualCheck_records _ sid _ hrep

/-- Claim C9 (witness): the amended recording law at the concrete
emergency store. -/
theorem c9_emergency_check_amended_witness :
    isOkE (emergencyStop emergencyStore "s1").1 = true ∧
    ∃ c rest, (emergencyStop emergencyStore "s1").2.checks = c :: rest ∧
      c.checkType = .MANUAL ∧ c.sessionId = "s1" ∧ c.timestamp = emergencyStore.now :=
  c9_emergency_check_amended emergencyStore "s1" baseSession (by decide)

/-- Claim C10 (witness): the unknown session behaviour at a concrete
store. -/
theorem c10_unknown_session_total_witness :
    assessPipeline emptyStore "nope" false = .error .notFound ∧
    assessCurrentState emptyStore "nope" false =
      (createEmergencyAssessment "nope" emptyStore.now, emptyStore) ∧
    (assessCurrentState emptyStore "nope" false).1.riskLevel = .HIGH ∧
    (assessCurrentState emptyStore "nope" false).1.recommendedAction = .PAUSE :=
  c10_unknown_session_total emptyStore "nope" (by decide)

end Emdr
